import Mathlib

/-!
Verification of the biomarker normalization and prediction pipeline of
`pages/1_Upload_Predict.py`.

The page's logical content is embedded shallowly:
* `intensity_mapping` and its lookup-with-default are taken verbatim from
  `create_biomarker_radar_fallback` (the only normalization table in the source).
* the dropdown option lists and `create_biomarker_section`'s returned
  single-entry dictionary come from `create_biomarker_section`.
* `create_prediction_section` models the "Analyze Sample" click handler:
  validation of the two inputs, the staged progress loop, and the write of the
  hardcoded prediction dictionary into `st.session_state['prediction_results']`.
* staining and location normalization have no implementation in the source
  tree; they are modelled from the spec (see the doc comments below).
-/

/-- Canonical intensity values (ordinal, rank 0–3). -/
inductive Intensity
  | negative
  | weak
  | moderate
  | strong
deriving DecidableEq, Repr

/-- Spec ordinal rank of a canonical intensity value. -/
def Intensity.rank : Intensity → Nat
  | .negative => 0
  | .weak => 1
  | .moderate => 2
  | .strong => 3

/-- Canonical staining values (ordinal, rank 0–3). -/
inductive Staining
  | notDetected
  | low
  | medium
  | high
deriving DecidableEq, Repr

/-- Canonical location values (nominal). -/
inductive Location
  | nuclear
  | cytoplasmic
  | membranous
  | mixed
  | unknown
deriving DecidableEq, Repr

/-- The raw-intensity → rank table of `create_biomarker_radar_fallback`
(source lines 92–96), verbatim. -/
def intensity_mapping : List (String × Nat) :=
  [("Negative", 0), ("Negative ", 0), ("Not detected", 0),
   ("Weak", 1), ("Moderate", 2), ("Moderate ", 2),
   ("Strong", 3), ("Strong ", 3), ("315", 3)]

/-- `intensity_mapping.get(intensity, 1)` (source line 100): table lookup with
default rank 1 for strings absent from the table. -/
def intensityRank (s : String) : Nat :=
  ((intensity_mapping.lookup s).getD 1)

/-- The spec's rank ↔ canonical-intensity correspondence (§3: Negative=0,
Weak=1, Moderate=2, Strong=3); the source table only produces ranks 0–3. -/
def rankToIntensity : Nat → Intensity
  | 0 => .negative
  | 1 => .weak
  | 2 => .moderate
  | _ => .strong

/-- Intensity normalization as implemented: the source rank table composed
with the spec's ordinal correspondence. -/
def normalizeIntensity (s : String) : Intensity :=
  rankToIntensity (intensityRank s)

/-- ASCII case-folding of one character. -/
def lowerChar (c : Char) : Char :=
  if c.toNat ≥ 65 ∧ c.toNat ≤ 90 then Char.ofNat (c.toNat + 32) else c

/-- Remove surrounding whitespace from a character list. -/
def trimChars (l : List Char) : List Char :=
  ((l.dropWhile Char.isWhitespace).reverse.dropWhile Char.isWhitespace).reverse

/-- §4.1 matching preamble: trim surrounding whitespace, then case-fold. -/
def canonChars (s : String) : List Char :=
  (trimChars s.data).map lowerChar

/-- A numeric-looking token: nonempty and all characters are decimal digits
(after trimming surrounding whitespace). -/
def isNumericLooking (s : String) : Bool :=
  let t := trimChars s.data
  !t.isEmpty && t.all Char.isDigit

/-- Modelled from the spec: the source has no staining normalizer (only the
intensity table exists in `pages/1_Upload_Predict.py`); §4.1 prescribes
trim, case-fold, exact match against a synonym table covering the §3
variants, and default `Medium` for anything absent from the table. -/
def normalizeStaining (raw : String) : Staining :=
  let s := canonChars raw
  if s = "not detected".data then .notDetected
  else if s = "low".data then .low
  else if s = "medium".data then .medium
  else if s = "high".data then .high
  else .medium

/-- A compound/multi-value location string: contains a slash or a comma. -/
def isCompound (l : List Char) : Bool :=
  l.any (fun c => c = '/' || c = ',')

/-- Modelled from the spec: the source has no location normalizer; §4.1
prescribes trim, case-fold, table match, with the edge policy that a
compound string (contains a slash or a comma) maps to `Mixed` and anything
absent from the table maps to the default `Unknown`. -/
def normalizeLocation (raw : String) : Location :=
  let s := canonChars raw
  if isCompound s then .mixed
  else if s = "nuclear".data then .nuclear
  else if s = "cytoplasmic".data then .cytoplasmic
  else if s = "membranous".data then .membranous
  else .unknown

/-- Normalization of one observation's three raw attribute strings. -/
def normalizeObservation (i s l : String) : Intensity × Staining × Location :=
  (normalizeIntensity i, normalizeStaining s, normalizeLocation l)

/-- The biomarker dropdown options of `create_biomarker_section`
(source line 201), verbatim. -/
def biomarker_options : List String :=
  ["Ki-67", "EGFR", "ESR1", "PGR", "BRCA1", "TP53", "ERBB2",
   "RB1", "SNAI1", "SNAI", "PTEN", "CDH1", "MKI67"]

/-- The intensity dropdown options (source line 203), verbatim. -/
def intensity_options : List String :=
  ["Moderate", "Strong", "Negative", "Weak", "Negative ", "Strong ",
   "Moderate ", "Not detected", "315"]

/-- The staining dropdown options (source line 205), verbatim. -/
def staining_options : List String :=
  ["Medium", "High", "Not detected", "Low", "Medium ",
   "NOS (M-00100)", "NOS (M-80003)", "Lobular carcinoma (M-85203)"]

/-- The location dropdown options (source line 207), verbatim. -/
def location_options : List String :=
  ["Nuclear", "Cytoplasmic", "cytoplasmic", "-", "Membranous nuclear",
   "Cytoplasmic/membranous", "Cytoplasmic/membranous, Nuclear", "Nuclear ",
   "Cytoplasmic/membranous, nuclear ", "Cytoplasmic/membranous ",
   "Cytoplasmic membranous, nuclear ", "Cytoplasmic membranous,nuclear ",
   "Cytoplasmic/membranous,nuclear", "Cytoplasmic/", "Negative",
   "Cytoplasmic/ membranous nuclear", "Weak", "Cytoplasmic/ membranous"]

/-- The per-biomarker attribute record built at source lines 264–268:
the three raw dropdown strings, untouched. -/
structure MarkerAttrs where
  intensity : String
  staining : String
  location : String
deriving DecidableEq, Repr

/-- `create_biomarker_section` (source lines 193–287): one biomarker is
selected from the dropdown, its three attributes are read from their
dropdowns, and the returned `biomarker_data` dictionary holds exactly that
single entry. The four `Fin` indices model the user's dropdown choices. -/
def create_biomarker_section (selIdx : Fin biomarker_options.length)
    (iIdx : Fin intensity_options.length) (sIdx : Fin staining_options.length)
    (lIdx : Fin location_options.length) : List (String × MarkerAttrs) :=
  [(biomarker_options.get selIdx,
    { intensity := intensity_options.get iIdx,
      staining := staining_options.get sIdx,
      location := location_options.get lIdx })]

/-- An uploaded file, reduced to its byte payload (opaque handle). -/
def UploadedFile := List Nat
deriving DecidableEq

/-- The dictionary written to `st.session_state['prediction_results']`
at source lines 334–345. -/
structure PredictionResult where
  image : UploadedFile
  biomarkers : List (String × MarkerAttrs)
  predictions : List (String × ℚ)
  top_prediction : String
  confidence : ℚ
deriving DecidableEq

/-- The session-scoped result store: `st.session_state`, reduced to the one
key this page writes. -/
structure SessionState where
  prediction_results : Option PredictionResult
deriving DecidableEq

/-- Reason codes for a failed run: the two distinct error branches at source
lines 301–307. -/
inductive FailReason
  | NoImage
  | NoBiomarker
deriving DecidableEq, Repr

/-- The user-visible message of each failure branch (source lines 302, 306). -/
def failMessage : FailReason → String
  | .NoImage => "Please upload an image first!"
  | .NoBiomarker => "Please select and configure a biomarker first!"

/-- Outcome of one "Analyze Sample" click. -/
inductive RunOutcome
  | Failed (reason : FailReason)
  | Complete
deriving DecidableEq, Repr

/-- The hardcoded dictionary written at source lines 334–345. -/
def prediction_results_dict (img : UploadedFile)
    (biomarker_data : List (String × MarkerAttrs)) : PredictionResult :=
  { image := img,
    biomarkers := biomarker_data,
    predictions :=
      [("IDC", 0.75), ("TNBC", 0.15), ("MBC", 0.07), ("ILC", 0.03)],
    top_prediction := "IDC",
    confidence := 0.75 }

/-- `create_prediction_section`'s click handler (source lines 300–355):
missing image → error and early return (session state untouched); empty
biomarker dictionary → error and early return (session state untouched);
otherwise the hardcoded prediction dictionary is written to
`st.session_state['prediction_results']`. -/
def create_prediction_section (uploaded_file : Option UploadedFile)
    (biomarker_data : List (String × MarkerAttrs))
    (s : SessionState) : RunOutcome × SessionState :=
  match uploaded_file with
  | none => (.Failed .NoImage, s)
  | some img =>
    if biomarker_data.isEmpty then (.Failed .NoBiomarker, s)
    else
      (.Complete,
       { prediction_results := some (prediction_results_dict img biomarker_data) })

/-- The progress value reported at loop index `i` (source line 323:
`progress_bar.progress(i + 1)` for `i in range(100)`). -/
def progressValue (i : Nat) : Nat := i + 1

/-- The four named progress stages of the loop (source lines 324–331). -/
inductive Stage
  | preprocessing
  | scoring
  | biomarkerAnalysis
  | finalizing
deriving DecidableEq, Repr

/-- Order of the stages as they appear in the loop. -/
def Stage.idx : Stage → Nat
  | .preprocessing => 0
  | .scoring => 1
  | .biomarkerAnalysis => 2
  | .finalizing => 3

/-- The stage text shown at loop index `i` (source lines 324–331:
`i < 30` preprocessing, `i < 60` running the model, `i < 90` analyzing
biomarkers, else generating results). -/
def stageAt (i : Nat) : Stage :=
  if i < 30 then .preprocessing
  else if i < 60 then .scoring
  else if i < 90 then .biomarkerAnalysis
  else .finalizing

/-- Sample concrete inputs used by witnesses. -/
def sampleImage : UploadedFile := [0, 1, 2]

/-- A second, distinct sample image payload. -/
def otherImage : UploadedFile := [9]

/-- Concrete raw attribute strings, all taken from the dropdown options. -/
def sampleAttrs : MarkerAttrs :=
  { intensity := "315", staining := "Not detected", location := "Nuclear" }

/-- A concrete single-biomarker dictionary. -/
def sampleBd : List (String × MarkerAttrs) := [("Ki-67", sampleAttrs)]

/-- A second concrete dictionary with different raw strings. -/
def otherBd : List (String × MarkerAttrs) :=
  [("EGFR", { intensity := "Moderate", staining := "High", location := "Cytoplasmic" })]

/-- C1: the Scenario 1 observation normalizes to (Negative, NotDetected,
Mixed): the source intensity table maps `'Negative '` to rank 0 = Negative,
the staining table maps `'Not detected'` to NotDetected, and the compound
location string (it contains a slash and a comma) maps to Mixed. -/
theorem scenario1_normalizes_to_canonical_triple :
    normalizeObservation "Negative " "Not detected" "Cytoplasmic/membranous, nuclear " =
      (Intensity.negative, Staining.notDetected, Location.mixed) ∧
    intensityRank "Negative " = Intensity.negative.rank ∧
    isCompound (canonChars "Cytoplasmic/membranous, nuclear ") = true := by
  decide

/-- C2 counterexample: the raw intensity string `"Borderline"` is absent
from the intensity table, yet it normalizes to rank 1 (Weak), not to
Moderate (rank 2) as the claim states. -/
theorem unknown_intensity_defaults_to_weak_not_moderate :
    intensity_mapping.lookup "Borderline" = none ∧
    normalizeIntensity "Borderline" ≠ Intensity.moderate ∧
    intensityRank "Borderline" ≠ Intensity.moderate.rank := by
  decide

/-- C2 (amended): normalization never fails on unknown strings, but the
intensity default implemented at source line 100 is rank 1 (Weak), not
Moderate; the spec-modelled staining and location normalizers default to
Medium and Unknown respectively. -/
theorem default_on_unknown (si ss sl : String)
    (hi : intensity_mapping.lookup si = none)
    (hs : canonChars ss ∉
      ["not detected".data, "low".data, "medium".data, "high".data])
    (hl : isCompound (canonChars sl) = false)
    (hl2 : canonChars sl ∉
      ["nuclear".data, "cytoplasmic".data, "membranous".data]) :
    normalizeIntensity si = Intensity.weak ∧ intensityRank si = 1 ∧
    normalizeStaining ss = Staining.medium ∧
    normalizeLocation sl = Location.unknown := by
  refine ⟨?_, ?_, ?_, ?_⟩
  · simp [normalizeIntensity, intensityRank, hi, rankToIntensity]
  · simp [intensityRank, hi]
  · unfold normalizeStaining
    simp only [List.mem_cons, List.mem_singleton, not_or] at hs
    simp [hs.1, hs.2.1, hs.2.2.1, hs.2.2.2.1]
  · unfold normalizeLocation
    simp only [List.mem_cons, List.mem_singleton, not_or] at hl2
    simp [hl, hl2.1, hl2.2.1, hl2.2.2.1]

/-- C2 witness: the amended default-on-unknown behavior at concrete unknown
strings. -/
theorem default_on_unknown_witness :
    normalizeIntensity "Borderline" = Intensity.weak ∧
    intensityRank "Borderline" = 1 ∧
    normalizeStaining "granular" = Staining.medium ∧
    normalizeLocation "perinuclear" = Location.unknown :=
  default_on_unknown "Borderline" "granular" "perinuclear"
    (by decide) (by decide) (by decide) (by decide)

/-- C3 counterexample: `"42"` is a numeric-looking intensity token, yet it is
absent from the intensity table and normalizes to the default Weak, not to
Strong as the claim's generalization states. -/
theorem numeric_token_not_always_strong :
    isNumericLooking "42" = true ∧
    normalizeIntensity "42" ≠ Intensity.strong ∧
    normalizeIntensity "42" = Intensity.weak := by
  decide

/-- C3 (amended): the specific raw intensity `'315'` (a table entry)
normalizes to Strong (rank 3); every other numeric-looking token absent
from the table falls to the default rank 1 (Weak). -/
theorem intensity_315_strong :
    normalizeIntensity "315" = Intensity.strong ∧
    intensityRank "315" = Intensity.strong.rank ∧
    (∀ s, intensity_mapping.lookup s = none →
      normalizeIntensity s = Intensity.weak) := by
  refine ⟨by decide, by decide, fun s h => ?_⟩
  simp [normalizeIntensity, intensityRank, h, rankToIntensity]

/-- C3 witness: the amended behavior at `'315'` and at the concrete unknown
numeric token `'42'`. -/
theorem intensity_315_strong_witness :
    normalizeIntensity "315" = Intensity.strong ∧
    normalizeIntensity "42" = Intensity.weak :=
  ⟨intensity_315_strong.1, intensity_315_strong.2.2 "42" (by decide)⟩

/-- C4: a run request with no uploaded image fails with the distinct reason
NoImage (not NoBiomarker), its message is the specific upload message, and
the session state — in particular `prediction_results` — is unchanged. -/
theorem no_image_fails_without_state_change
    (bd : List (String × MarkerAttrs)) (s : SessionState) :
    create_prediction_section none bd s = (RunOutcome.Failed FailReason.NoImage, s) ∧
    FailReason.NoImage ≠ FailReason.NoBiomarker ∧
    failMessage FailReason.NoImage = "Please upload an image first!" ∧
    (create_prediction_section none bd s).2.prediction_results =
      s.prediction_results := by
  exact ⟨rfl, by decide, rfl, rfl⟩

/-- C5: every successful run stores a probability mapping whose entries all
lie in [0,1] and whose sum is 1 within 1e-6 (here it is exactly 1). -/
theorem distribution_valid (uf : Option UploadedFile)
    (bd : List (String × MarkerAttrs)) (s : SessionState) (r : PredictionResult)
    (hc : (create_prediction_section uf bd s).1 = RunOutcome.Complete)
    (hr : (create_prediction_section uf bd s).2.prediction_results = some r) :
    (∀ p ∈ r.predictions, 0 ≤ p.2 ∧ p.2 ≤ 1) ∧
    |(r.predictions.map Prod.snd).sum - 1| ≤ 1 / 1000000 := by
  cases uf with
  | none => simp [create_prediction_section] at hc
  | some img =>
    by_cases hbd : bd.isEmpty
    · simp [create_prediction_section, hbd] at hc
    · simp only [create_prediction_section, hbd, if_neg, Bool.false_eq_true,
        ite_false, Option.some.injEq] at hr
      subst hr
      constructor
      · intro p hp
        simp only [prediction_results_dict] at hp
        fin_cases hp <;> norm_num
      · simp only [prediction_results_dict]
        norm_num

/-- C5 witness: the distribution stored by a concrete successful run. -/
theorem distribution_valid_witness :
    (∀ p ∈ (prediction_results_dict sampleImage sampleBd).predictions,
      0 ≤ p.2 ∧ p.2 ≤ 1) ∧
    |((prediction_results_dict sampleImage sampleBd).predictions.map
        Prod.snd).sum - 1| ≤ 1 / 1000000 :=
  distribution_valid (some sampleImage) sampleBd ⟨none⟩
    (prediction_results_dict sampleImage sampleBd) rfl rfl

/-- C6: a full valid submission (image present, biomarker configured) ends
Complete; the stored result's top_prediction is one of the four subtype
labels, its confidence equals the probability recorded for top_prediction,
and top_prediction is an argmax of the distribution. -/
theorem full_submission_completes (img : UploadedFile)
    (bd : List (String × MarkerAttrs)) (s : SessionState) (hbd : bd ≠ []) :
    (create_prediction_section (some img) bd s).1 = RunOutcome.Complete ∧
    (create_prediction_section (some img) bd s).2.prediction_results =
      some (prediction_results_dict img bd) ∧
    (prediction_results_dict img bd).top_prediction ∈
      ["IDC", "TNBC", "MBC", "ILC"] ∧
    (prediction_results_dict img bd).predictions.lookup
        (prediction_results_dict img bd).top_prediction =
      some (prediction_results_dict img bd).confidence ∧
    (∀ p ∈ (prediction_results_dict img bd).predictions,
      p.2 ≤ (prediction_results_dict img bd).confidence) := by
  have hbd' : bd.isEmpty = false := by
    cases bd with
    | nil => exact absurd rfl hbd
    | cons a l => rfl
  refine ⟨?_, ?_, ?_, ?_, ?_⟩
  · simp [create_prediction_section, hbd']
  · simp [create_prediction_section, hbd']
  · simp [prediction_results_dict]
  · simp [prediction_results_dict, List.lookup]
  · intro p hp
    simp only [prediction_results_dict] at hp ⊢
    fin_cases hp <;> norm_num

/-- C6 witness: a concrete full submission. -/
theorem full_submission_completes_witness :
    (create_prediction_section (some sampleImage) sampleBd ⟨none⟩).1 =
      RunOutcome.Complete ∧
    (prediction_results_dict sampleImage sampleBd).top_prediction ∈
      ["IDC", "TNBC", "MBC", "ILC"] :=
  ⟨(full_submission_completes sampleImage sampleBd ⟨none⟩ (by decide)).1,
   (full_submission_completes sampleImage sampleBd ⟨none⟩ (by decide)).2.2.1⟩

/-- C7: across the 100-step progress loop the reported value is strictly
increasing from 1 to 100; the loop passes through exactly the four stages in
order (30 preprocessing steps, then 30 scoring, then 30 biomarker-analysis,
then 10 finalizing); each stage's reported progress lies in its documented
band; and the stage index never decreases, so no stage is re-entered. -/
theorem staged_progress :
    ((List.range 100).map stageAt =
      List.replicate 30 Stage.preprocessing ++ List.replicate 30 Stage.scoring ++
        List.replicate 30 Stage.biomarkerAnalysis ++
        List.replicate 10 Stage.finalizing) ∧
    (∀ i j, i < j → progressValue i < progressValue j) ∧
    progressValue 0 = 1 ∧ progressValue 99 = 100 ∧
    (∀ i, (stageAt i = Stage.preprocessing →
            0 < progressValue i ∧ progressValue i ≤ 30) ∧
          (stageAt i = Stage.scoring →
            30 < progressValue i ∧ progressValue i ≤ 60) ∧
          (stageAt i = Stage.biomarkerAnalysis →
            60 < progressValue i ∧ progressValue i ≤ 90) ∧
          (i < 100 → stageAt i = Stage.finalizing →
            90 < progressValue i ∧ progressValue i ≤ 100)) ∧
    (∀ i j, i ≤ j → (stageAt i).idx ≤ (stageAt j).idx) := by
  refine ⟨by decide, ?_, rfl, rfl, ?_, ?_⟩
  · intro i j h
    simpa [progressValue] using h
  · intro i
    refine ⟨?_, ?_, ?_, ?_⟩ <;>
      · unfold stageAt progressValue
        split_ifs <;> (simp; try omega)
  · intro i j h
    unfold stageAt
    split_ifs <;> simp [Stage.idx] <;> omega

/-- C7 witness: the staged-progress facts at concrete loop indices. -/
theorem staged_progress_witness :
    progressValue 10 < progressValue 50 ∧
    (30 < progressValue 45 ∧ progressValue 45 ≤ 60) ∧
    (stageAt 20).idx ≤ (stageAt 80).idx :=
  ⟨staged_progress.2.1 10 50 (by decide),
   (staged_progress.2.2.2.2.1 45).2.1 (by decide),
   staged_progress.2.2.2.2.2 20 80 (by decide)⟩

/-- C8 counterexample: a run completed with raw intensity `'315'` stores that
raw dropdown string verbatim; the stored intensity is not a member of the
canonical set {Negative, Weak, Moderate, Strong}, so the persisted result
holds raw strings, not the CanonicalObservation. -/
theorem stored_raw_intensity_not_canonical :
    (create_prediction_section (some sampleImage) sampleBd ⟨none⟩).1 =
      RunOutcome.Complete ∧
    ∃ r, (create_prediction_section
        (some sampleImage) sampleBd ⟨none⟩).2.prediction_results = some r ∧
      ∃ m ∈ r.biomarkers,
        m.2.intensity ∉ ["Negative", "Weak", "Moderate", "Strong"] := by
  refine ⟨rfl, prediction_results_dict sampleImage sampleBd, rfl,
    ("Ki-67", sampleAttrs), ?_, ?_⟩
  · decide
  · decide

/-- C8 (amended): the persisted result stores the biomarker dictionary — and
with it the three raw dropdown strings — verbatim, with no normalization
between the dropdowns and the result store. -/
theorem stored_biomarkers_are_raw (img : UploadedFile)
    (bd : List (String × MarkerAttrs)) (s : SessionState) (hbd : bd ≠ []) :
    (create_prediction_section (some img) bd s).2.prediction_results =
      some (prediction_results_dict img bd) ∧
    (prediction_results_dict img bd).biomarkers = bd := by
  have hbd' : bd.isEmpty = false := by
    cases bd with
    | nil => exact absurd rfl hbd
    | cons a l => rfl
  exact ⟨by simp [create_prediction_section, hbd'], rfl⟩

/-- C8 witness: verbatim storage at a concrete run. -/
theorem stored_biomarkers_are_raw_witness :
    (prediction_results_dict sampleImage sampleBd).biomarkers = sampleBd :=
  (stored_biomarkers_are_raw sampleImage sampleBd ⟨none⟩ (by decide)).2

/-- C9: the scorer is a constant function — any two completed runs, whatever
their image bytes and raw biomarker strings, store the same hardcoded
distribution {IDC: 0.75, TNBC: 0.15, MBC: 0.07, ILC: 0.03} with
top_prediction IDC and confidence 0.75. -/
theorem scorer_is_constant (img1 img2 : UploadedFile)
    (bd1 bd2 : List (String × MarkerAttrs)) (s1 s2 : SessionState)
    (h1 : bd1 ≠ []) (h2 : bd2 ≠ []) :
    (create_prediction_section (some img1) bd1 s1).1 = RunOutcome.Complete ∧
    (create_prediction_section (some img2) bd2 s2).1 = RunOutcome.Complete ∧
    ∃ r1 r2,
      (create_prediction_section (some img1) bd1 s1).2.prediction_results =
        some r1 ∧
      (create_prediction_section (some img2) bd2 s2).2.prediction_results =
        some r2 ∧
      r1.predictions =
        [("IDC", 0.75), ("TNBC", 0.15), ("MBC", 0.07), ("ILC", 0.03)] ∧
      r1.top_prediction = "IDC" ∧ r1.confidence = 0.75 ∧
      r2.predictions = r1.predictions ∧
      r2.top_prediction = r1.top_prediction ∧
      r2.confidence = r1.confidence := by
  have h1' : bd1.isEmpty = false := by
    cases bd1 with
    | nil => exact absurd rfl h1
    | cons a l => rfl
  have h2' : bd2.isEmpty = false := by
    cases bd2 with
    | nil => exact absurd rfl h2
    | cons a l => rfl
  refine ⟨by simp [create_prediction_section, h1'],
    by simp [create_prediction_section, h2'],
    prediction_results_dict img1 bd1, prediction_results_dict img2 bd2,
    by simp [create_prediction_section, h1'],
    by simp [create_prediction_section, h2'],
    rfl, rfl, rfl, rfl, rfl, rfl⟩

/-- C9 witness: two completed runs with different images and different raw
biomarker strings store identical predictions. -/
theorem scorer_is_constant_witness :
    sampleImage ≠ otherImage ∧ sampleBd ≠ otherBd ∧
    (create_prediction_section (some sampleImage) sampleBd ⟨none⟩).1 =
      RunOutcome.Complete ∧
    (create_prediction_section (some otherImage) otherBd ⟨none⟩).1 =
      RunOutcome.Complete :=
  ⟨by decide, by decide,
   (scorer_is_constant sampleImage otherImage sampleBd otherBd ⟨none⟩ ⟨none⟩
      (by decide) (by decide)).1,
   (scorer_is_constant sampleImage otherImage sampleBd otherBd ⟨none⟩ ⟨none⟩
      (by decide) (by decide)).2.1⟩

/-- C10: `create_biomarker_section` always returns a dictionary with exactly
one entry whose biomarker name and three attribute strings come from the
dropdown option lists; consequently, whenever an image is present, the
NoBiomarker failure branch of `create_prediction_section` can never fire and
the run completes. -/
theorem biomarker_section_single_entry
    (selIdx : Fin biomarker_options.length)
    (iIdx : Fin intensity_options.length)
    (sIdx : Fin staining_options.length)
    (lIdx : Fin location_options.length) :
    (create_biomarker_section selIdx iIdx sIdx lIdx).length = 1 ∧
    create_biomarker_section selIdx iIdx sIdx lIdx ≠ [] ∧
    (∀ m ∈ create_biomarker_section selIdx iIdx sIdx lIdx,
      m.1 ∈ biomarker_options ∧ m.2.intensity ∈ intensity_options ∧
      m.2.staining ∈ staining_options ∧ m.2.location ∈ location_options) ∧
    (∀ img s, (create_prediction_section (some img)
        (create_biomarker_section selIdx iIdx sIdx lIdx) s).1 ≠
      RunOutcome.Failed FailReason.NoBiomarker) ∧
    (∀ img s, (create_prediction_section (some img)
        (create_biomarker_section selIdx iIdx sIdx lIdx) s).1 =
      RunOutcome.Complete) := by
  refine ⟨rfl, by simp [create_biomarker_section], ?_, ?_, ?_⟩
  · intro m hm
    simp only [create_biomarker_section, List.mem_singleton] at hm
    subst hm
    exact ⟨List.get_mem _ _ _, List.get_mem _ _ _, List.get_mem _ _ _,
      List.get_mem _ _ _⟩
  · intro img s
    simp [create_prediction_section, create_biomarker_section]
  · intro img s
    simp [create_prediction_section, create_biomarker_section]

/-- C10 witness: a concrete dropdown choice yields a single-entry dictionary
and, with an image present, a completed run. -/
theorem biomarker_section_single_entry_witness :
    (create_biomarker_section ⟨0, by decide⟩ ⟨8, by decide⟩ ⟨2, by decide⟩
      ⟨0, by decide⟩).length = 1 ∧
    (create_prediction_section (some sampleImage)
      (create_biomarker_section ⟨0, by decide⟩ ⟨8, by decide⟩ ⟨2, by decide⟩
        ⟨0, by decide⟩) ⟨none⟩).1 = RunOutcome.Complete :=
  ⟨(biomarker_section_single_entry _ _ _ _).1,
   (biomarker_section_single_entry _ _ _ _).2.2.2.2 sampleImage ⟨none⟩⟩
